import Mathlib

/-!
Shallow embedding of the dispatch-system core: the trip lifecycle, the
commission trigger, the two-source verification trigger, the reconciliation
aggregator and the settle operation, translated from
`src/app/dashboard/page.tsx` (dashboard actions, NewTripModal),
the reconciliation page, and the database triggers in `db_schema.md`.
Monetary amounts (`numeric` in the store, `number` in the client) are
embedded as exact rationals `ℚ`.
-/

namespace Dispatch

/-- The `TripStatus` literal union from `src/types/database.ts`:
`Pending | Confirmed | In Progress | Completed`. -/
inductive TripStatus where
  | pending
  | confirmed
  | inProgress
  | completed
deriving DecidableEq, Repr

/-- The `trips` row (`Trip` in `src/types/database.ts`); timestamps kept as
opaque strings, amounts as `ℚ`. -/
structure Trip where
  id : String
  customer_id : String
  driver_id : Option String
  load_description : String
  pickup_location : String
  dropoff_location : String
  pickup_time : String
  agreed_fare : Option ℚ
  platform_commission : Option ℚ
  status : TripStatus
  customer_verified_amount : Option ℚ
  driver_verified_amount : Option ℚ
  commission_paid : Bool
  commission_settled : Bool
deriving DecidableEq, Repr

/-- The `customers` row (`Customer` in `src/types/database.ts`). -/
structure Customer where
  id : String
  full_name : String
  phone_number : String
  business_type : Option String
deriving DecidableEq, Repr

/-- The `drivers` row (`Driver` in `src/types/database.ts`), restricted to the
fields the modelled actions read. -/
structure Driver where
  id : String
  full_name : String
  phone_number : String
deriving DecidableEq, Repr

/-- Payload of an audit row's `new_data`/`old_data` jsonb in the observed
events: either the two verified amounts
(`jsonb_build_object(customer_amount, driver_amount)`), or a status value
(`jsonb_build_object(status, ...)`). -/
inductive AuditPayload where
  | amounts (customer_amount driver_amount : ℚ)
  | statusValue (status : TripStatus)
deriving DecidableEq, Repr

/-- A row of `audit_logs` (from `db_schema.md`), restricted to the columns the
triggers populate. -/
structure AuditEvent where
  table_name : String
  record_id : String
  action : String
  old_data : Option AuditPayload
  new_data : Option AuditPayload
  message : String
deriving DecidableEq, Repr

/-- The trigger function `calculate_trip_commission` from `db_schema.md`:
if `NEW.agreed_fare IS NOT NULL` then `NEW.platform_commission :=
NEW.agreed_fare * 0.12` else `NULL`. It runs `BEFORE INSERT OR UPDATE OF
agreed_fare ON trips`. -/
def calculate_trip_commission (agreed_fare : Option ℚ) : Option ℚ :=
  match agreed_fare with
  | some f => some (f * (12 / 100))
  | none => none

/-- The spec's Commission Engine contract name for the same function
(`deriveCommission(agreedFare: amount|null) -> amount|null`). -/
def deriveCommission (agreedFare : Option ℚ) : Option ℚ :=
  calculate_trip_commission agreedFare

/-- Applying the `BEFORE INSERT OR UPDATE OF agreed_fare` trigger
`set_trip_commission` to a row about to be written: the commission column is
overwritten from the fare, whatever value it held. -/
def applyCommissionTrigger (t : Trip) : Trip :=
  { t with platform_commission := calculate_trip_commission t.agreed_fare }

/-- An update of `agreed_fare` on a trip row, as the store executes it: the
new fare is written and the `set_trip_commission` trigger recomputes
`platform_commission` before the row is saved. -/
def updateAgreedFare (t : Trip) (fare : Option ℚ) : Trip :=
  applyCommissionTrigger { t with agreed_fare := fare }

/-- The trigger function `verify_trip_amounts` from `db_schema.md`, fired
`AFTER UPDATE OF customer_verified_amount, driver_verified_amount`. Given the
`OLD` and `NEW` rows it returns the audit rows it inserts: nothing unless both
amounts are non-null and at least one is distinct from its old value;
otherwise one `VERIFICATION_MISMATCH` row (with both amounts in `new_data`)
when they differ, else one `VERIFICATION_MATCH` row. -/
def verify_trip_amounts (oldRow newRow : Trip) : List AuditEvent :=
  match newRow.customer_verified_amount, newRow.driver_verified_amount with
  | some c, some d =>
    if newRow.customer_verified_amount ≠ oldRow.customer_verified_amount ∨
        newRow.driver_verified_amount ≠ oldRow.driver_verified_amount then
      if c ≠ d then
        [{ table_name := "trips"
           record_id := newRow.id
           action := "VERIFICATION_MISMATCH"
           old_data := none
           new_data := some (AuditPayload.amounts c d)
           message := "Discrepancy detected! Customer and driver reported different amounts." }]
      else
        [{ table_name := "trips"
           record_id := newRow.id
           action := "VERIFICATION_MATCH"
           old_data := none
           new_data := none
           message := "Amounts verified successfully by both parties." }]
    else []
  | _, _ => []

/-- A store update that writes the two verified-amount columns of a trip row.
The trigger is `AFTER UPDATE`, so the written row is exactly the update; the
trigger only appends audit rows and can neither block the write nor change
the row. Returns the saved row and the appended audit rows. -/
def updateVerifiedAmounts (t : Trip) (c d : Option ℚ) :
    Trip × List AuditEvent :=
  let newRow := { t with customer_verified_amount := c, driver_verified_amount := d }
  (newRow, verify_trip_amounts t newRow)

/-- The `next` field of `ADVANCE_CONFIG` in `src/app/dashboard/page.tsx`: a
partial record with entries only for `Confirmed ↦ In Progress` and
`In Progress ↦ Completed`; `Pending` and `Completed` have no entry (the
record's other fields are presentation strings and are not modelled). -/
def ADVANCE_CONFIG : TripStatus → Option TripStatus
  | TripStatus.confirmed => some TripStatus.inProgress
  | TripStatus.inProgress => some TripStatus.completed
  | _ => none

/-- Outcome of `handleAdvanceStatus`: the early `if (!cfg) return;` branch
(nothing written, nothing surfaced), a thrown store error
(`throw new Error(error.message)`), or a completed one-step update. -/
inductive AdvanceResult where
  | skipped
  | errorThrown (msg : String)
  | updated (next : TripStatus)
deriving DecidableEq, Repr

/-- The dashboard's `handleAdvanceStatus(trip)`: look up
`ADVANCE_CONFIG[trip.status]`; with no entry, return immediately (before any
store call, so a store fault is irrelevant); otherwise issue the single
update `status := cfg.next` on the row with the trip's id, rethrowing a
store error and otherwise mapping the same change over the local state. -/
def handleAdvanceStatus (storeError : Option String) (trips : List Trip)
    (trip : Trip) : List Trip × AdvanceResult :=
  match ADVANCE_CONFIG trip.status with
  | none => (trips, AdvanceResult.skipped)
  | some next =>
    match storeError with
    | some msg => (trips, AdvanceResult.errorThrown msg)
    | none =>
      (trips.map (fun t => if t.id = trip.id then { t with status := next } else t),
        AdvanceResult.updated next)

/-- The `canConfirm` guard of `MatchmakingModal`: a driver is selected
(`drivers.find(d => d.id === selectedDriverId) ?? null` is non-null) and the
fare input parses to a number (`!isNaN(parsedFare)`, modelled as `some f`)
with `parsedFare > 0`. -/
def canConfirm (selectedDriver : Option Driver) (parsedFare : Option ℚ) : Bool :=
  selectedDriver.isSome &&
    match parsedFare with
    | some f => decide (0 < f)
    | none => false

/-- `handleConfirmAssignment(driver, agreedFare)`: one store update on the
selected trip's row setting `driver_id`, `agreed_fare` and
`status = Confirmed`; the `set_trip_commission` trigger recomputes
`platform_commission` in the same write (the optimistic client state applies
the identical `agreedFare * 0.12`). -/
def handleConfirmAssignment (trips : List Trip) (tripId : String)
    (driverId : String) (agreedFare : ℚ) : List Trip :=
  trips.map (fun t =>
    if t.id = tripId then
      applyCommissionTrigger
        { t with driver_id := some driverId
                 agreed_fare := some agreedFare
                 status := TripStatus.confirmed }
    else t)

/-- The full assign-driver action: `MatchmakingModal.handleConfirm` guards
with `if (!selectedDriver || !canConfirm) return;` and only then calls
`onConfirm(selectedDriver, parsedFare)` = `handleConfirmAssignment`. Returns
the new trips state and whether the assignment was submitted. -/
def confirmAssignment (trips : List Trip) (tripId : String)
    (drivers : List Driver) (selectedDriverId : String)
    (parsedFare : Option ℚ) : List Trip × Bool :=
  let selectedDriver := drivers.find? (fun d => d.id = selectedDriverId)
  match selectedDriver, parsedFare with
  | some d, some f =>
    if 0 < f then (handleConfirmAssignment trips tripId d.id f, true)
    else (trips, false)
  | _, _ => (trips, false)

/-- The joined `driver` object carried by the reconciliation query
(`driver:drivers(id, full_name, phone_number)`). -/
structure DriverRef where
  id : String
  full_name : String
  phone_number : String
deriving DecidableEq, Repr

/-- The `UnsettledTrip` row shape of the reconciliation page: the trip columns
it reads plus the joined driver. -/
structure UnsettledTrip where
  id : String
  driver_id : Option String
  load_description : String
  pickup_location : String
  dropoff_location : String
  pickup_time : String
  agreed_fare : Option ℚ
  platform_commission : Option ℚ
  driver : Option DriverRef
deriving DecidableEq, Repr

/-- A `DriverStatement` of the reconciliation page. -/
structure DriverStatement where
  driver : DriverRef
  trips : List UnsettledTrip
  totalFare : ℚ
  totalCommission : ℚ
deriving DecidableEq, Repr

/-- The fare term accumulated into `totalFare`: `trip.agreed_fare ?? 0`. -/
def fareOrZero (t : UnsettledTrip) : ℚ :=
  t.agreed_fare.getD 0

/-- The commission term accumulated into `totalCommission`:
`trip.platform_commission ?? (trip.agreed_fare ?? 0) * 0.12`. -/
def commissionOf (t : UnsettledTrip) : ℚ :=
  t.platform_commission.getD (fareOrZero t * (12 / 100))

/-- One loop iteration of `groupByDriver`, on the insertion-ordered map
modelled as an association list keyed by `driver_id`. The source skips a trip
when `!trip.driver_id || !trip.driver` (a JS-falsy id is `null`, `undefined`
or the empty string); otherwise it creates the driver's statement on first
sight and pushes the trip, adding `agreed_fare ?? 0` to `totalFare` and the
commission term to `totalCommission`. -/
def addTripToMap (acc : List (String × DriverStatement)) (t : UnsettledTrip) :
    List (String × DriverStatement) :=
  match t.driver_id, t.driver with
  | some k, some d =>
    if k = "" then acc
    else if (acc.find? (fun p => p.1 = k)).isSome then
      acc.map (fun p =>
        if p.1 = k then
          (p.1, { p.2 with trips := p.2.trips ++ [t]
                           totalFare := p.2.totalFare + fareOrZero t
                           totalCommission := p.2.totalCommission + commissionOf t })
        else p)
    else
      acc ++ [(k, { driver := d
                    trips := [t]
                    totalFare := fareOrZero t
                    totalCommission := commissionOf t })]
  | _, _ => acc

/-- The comparator `(a, b) => b.totalCommission - a.totalCommission` as an
order relation: `a` precedes `b` when `b.totalCommission ≤
a.totalCommission`. -/
def commissionDescending (a b : DriverStatement) : Prop :=
  b.totalCommission ≤ a.totalCommission

instance : DecidableRel commissionDescending := fun a b =>
  inferInstanceAs (Decidable (b.totalCommission ≤ a.totalCommission))

instance : IsTotal DriverStatement commissionDescending :=
  ⟨fun a b => le_total b.totalCommission a.totalCommission⟩

instance : IsTrans DriverStatement commissionDescending :=
  ⟨fun _ _ _ hab hbc => le_trans hbc hab⟩

/-- `groupByDriver(trips)` from the reconciliation page: fold the trips into
the insertion-ordered per-driver map, take its values, and sort them
descending by `totalCommission` (`sort((a, b) => b.totalCommission -
a.totalCommission)`; `Array.prototype.sort` is stable, so a stable sort by
that key — here insertion sort — reproduces it). -/
def groupByDriver (trips : List UnsettledTrip) : List DriverStatement :=
  ((trips.foldl addTripToMap []).map Prod.snd).insertionSort commissionDescending

/-- The reconciliation page's fetch filter: `status = 'Completed'` and
`commission_settled = false` (ordering by `created_at` keeps store order). -/
def fetchCompletedUnsettled (trips : List Trip) : List Trip :=
  trips.filter (fun t =>
    t.status = TripStatus.completed && t.commission_settled = false)

/-- The store write inside `handleSettle`: `update({ commission_settled:
true }).in('id', tripIds)` — one statement setting the flag on exactly the
rows whose id is in the list. -/
def settleTrips (trips : List Trip) (tripIds : List String) : List Trip :=
  trips.map (fun t =>
    if t.id ∈ tripIds then { t with commission_settled := true } else t)

/-- State surfaced by a `handleSettle` call: the store, the working set of
statements, the toast message, and whether the call threw. -/
structure SettleOutcome where
  trips : List Trip
  statements : List DriverStatement
  toast : String
  threw : Bool
deriving DecidableEq, Repr

/-- `handleSettle(driverId, tripIds)` from the reconciliation page: the single
update either fails — toast `"Error settling balance. Please try again."`,
rethrow, store and statements untouched — or succeeds, after which the
driver's statement is removed from the working set and the success toast
shown. -/
def handleSettle (storeError : Option String) (trips : List Trip)
    (statements : List DriverStatement) (driverId : String)
    (tripIds : List String) : SettleOutcome :=
  match storeError with
  | some _ =>
    { trips := trips
      statements := statements
      toast := "Error settling balance. Please try again."
      threw := true }
  | none =>
    { trips := settleTrips trips tripIds
      statements := statements.filter (fun s => s.driver.id ≠ driverId)
      toast := "Balance settled successfully"
      threw := false }

/-- JS `String.prototype.trim()`: strip leading and trailing whitespace,
modelled structurally over the character list so it evaluates. -/
def jsTrim (s : String) : String :=
  String.mk
    (((s.data.dropWhile Char.isWhitespace).reverse.dropWhile Char.isWhitespace).reverse)

/-- Step 1 and 2 of `NewTripModal.handleSubmit`: look up a customer by the
trimmed phone number (`.eq('phone_number', phoneNumber.trim()).limit(1)`); a
returning customer's id is reused, otherwise a new row with the trimmed
fields (`businessType.trim() || null`) is inserted and its fresh id used.
Returns the customers table afterwards and the id used for the trip. -/
def upsertCustomer (customers : List Customer) (fullName phoneNumber businessType : String)
    (freshId : String) : List Customer × String :=
  match customers.find? (fun c => c.phone_number = jsTrim phoneNumber) with
  | some c => (customers, c.id)
  | none =>
    (customers ++
      [{ id := freshId
         full_name := jsTrim fullName
         phone_number := jsTrim phoneNumber
         business_type := if jsTrim businessType = "" then none else some (jsTrim businessType) }],
      freshId)

/-- Step 3 of `NewTripModal.handleSubmit`: the insert payload is
`status: 'Pending'`, `driver_id: null`, `agreed_fare: null`,
`commission_paid: false` plus the form fields; the verified amounts and
`commission_settled` take their column defaults, and the `BEFORE INSERT`
trigger `set_trip_commission` fills `platform_commission` from the null
fare. -/
def insertNewTrip (freshId customerId loadDescription pickupLocation dropoffLocation pickupTime :
    String) : Trip :=
  applyCommissionTrigger
    { id := freshId
      customer_id := customerId
      driver_id := none
      load_description := jsTrim loadDescription
      pickup_location := jsTrim pickupLocation
      dropoff_location := jsTrim dropoffLocation
      pickup_time := pickupTime
      agreed_fare := none
      platform_commission := none
      status := TripStatus.pending
      customer_verified_amount := none
      driver_verified_amount := none
      commission_paid := false
      commission_settled := false }

/-! ## Theorems -/

/-- C2: `deriveCommission(null) = null`, `deriveCommission(f) = f * 0.12` for
every non-null fare, and after every insert of a trip and every update of
`agreed_fare` — every write path that touches the fare runs the
`set_trip_commission` trigger — `platform_commission` equals
`deriveCommission(agreed_fare)` regardless of the value it held before, so it
is never set independently of the fare. -/
theorem commission_always_derived :
    deriveCommission none = none ∧
    (∀ f : ℚ, deriveCommission (some f) = some (f * (12 / 100))) ∧
    (∀ t : Trip, ∀ fare : Option ℚ,
      (updateAgreedFare t fare).platform_commission =
        deriveCommission (updateAgreedFare t fare).agreed_fare ∧
      (updateAgreedFare t fare).agreed_fare = fare) ∧
    (∀ a b c d e f,
      (insertNewTrip a b c d e f).platform_commission =
        deriveCommission (insertNewTrip a b c d e f).agreed_fare) ∧
    (∀ trips tripId driverId fare,
      handleConfirmAssignment trips tripId driverId fare =
        trips.map (fun t =>
          if t.id = tripId then
            { t with driver_id := some driverId
                     agreed_fare := some fare
                     status := TripStatus.confirmed
                     platform_commission := deriveCommission (some fare) }
          else t)) := by
  refine ⟨rfl, fun f => rfl, fun t fare => ⟨rfl, rfl⟩, fun a b c d e f => rfl,
    fun trips tripId driverId fare => ?_⟩
  unfold handleConfirmAssignment
  apply List.map_congr_left
  intro t _
  by_cases h : t.id = tripId <;> simp [h, applyCommissionTrigger, deriveCommission]

/-- C9: a trip created through `NewTripModal.handleSubmit` starts Pending with
no driver, no fare, hence (through the insert trigger) no commission, and
`commission_paid = false`. -/
theorem new_trip_initial_state :
    ∀ a b c d e f,
      (insertNewTrip a b c d e f).status = TripStatus.pending ∧
      (insertNewTrip a b c d e f).driver_id = none ∧
      (insertNewTrip a b c d e f).agreed_fare = none ∧
      (insertNewTrip a b c d e f).platform_commission = none ∧
      (insertNewTrip a b c d e f).commission_paid = false := by
  intro a b c d e f
  exact ⟨rfl, rfl, rfl, rfl, rfl⟩

/-- C3: on an update of the verified amounts, exactly one audit event is
appended when both new amounts are non-null and at least one differs from its
old value — `VERIFICATION_MISMATCH` with payload `(customer_amount,
driver_amount)` and the discrepancy message when they are unequal, else
`VERIFICATION_MATCH` with the success message; no event otherwise (either
amount null, or neither changed); and the saved row is always exactly the
requested update — the check neither blocks the write nor mutates the row. -/
theorem verification_safeguard_events :
    (∀ (t : Trip) (c d : ℚ),
      (some c ≠ t.customer_verified_amount ∨ some d ≠ t.driver_verified_amount) →
      c ≠ d →
      (updateVerifiedAmounts t (some c) (some d)).2 =
        [{ table_name := "trips"
           record_id := t.id
           action := "VERIFICATION_MISMATCH"
           old_data := none
           new_data := some (AuditPayload.amounts c d)
           message := "Discrepancy detected! Customer and driver reported different amounts." }]) ∧
    (∀ (t : Trip) (c d : ℚ),
      (some c ≠ t.customer_verified_amount ∨ some d ≠ t.driver_verified_amount) →
      c = d →
      (updateVerifiedAmounts t (some c) (some d)).2 =
        [{ table_name := "trips"
           record_id := t.id
           action := "VERIFICATION_MATCH"
           old_data := none
           new_data := none
           message := "Amounts verified successfully by both parties." }]) ∧
    (∀ (t : Trip) (d : Option ℚ), (updateVerifiedAmounts t none d).2 = []) ∧
    (∀ (t : Trip) (c : Option ℚ), (updateVerifiedAmounts t c none).2 = []) ∧
    (∀ (t : Trip) (c d : ℚ),
      some c = t.customer_verified_amount → some d = t.driver_verified_amount →
      (updateVerifiedAmounts t (some c) (some d)).2 = []) ∧
    (∀ (t : Trip) (c d : Option ℚ),
      (updateVerifiedAmounts t c d).1 =
        { t with customer_verified_amount := c, driver_verified_amount := d }) := by
  refine ⟨?_, ?_, ?_, ?_, ?_, ?_⟩
  · intro t c d hchanged hne
    simp only [updateVerifiedAmounts, verify_trip_amounts]
    rw [if_pos (by simpa using hchanged), if_pos hne]
  · intro t c d hchanged heq
    simp only [updateVerifiedAmounts, verify_trip_amounts]
    rw [if_pos (by simpa using hchanged), if_neg (by simpa using heq)]
  · intro t d
    cases d <;> rfl
  · intro t c
    cases c <;> rfl
  · intro t c d hc hd
    simp only [updateVerifiedAmounts, verify_trip_amounts]
    rw [if_neg]
    simp [← hc, ← hd]
  · intro t c d
    rfl

/-- C3 witness: the safeguard evaluated at concrete updates — a fresh pair of
distinct amounts yields exactly the mismatch event, an equal pair the match
event, and a null customer amount no event. -/
theorem verification_safeguard_events_witness :
    (updateVerifiedAmounts (insertNewTrip "t1" "c1" "l" "p" "d" "m") (some 5000) (some 4500)).2 =
      [{ table_name := "trips"
         record_id := "t1"
         action := "VERIFICATION_MISMATCH"
         old_data := none
         new_data := some (AuditPayload.amounts 5000 4500)
         message := "Discrepancy detected! Customer and driver reported different amounts." }] ∧
    (updateVerifiedAmounts (insertNewTrip "t1" "c1" "l" "p" "d" "m") (some 5000) (some 5000)).2 =
      [{ table_name := "trips"
         record_id := "t1"
         action := "VERIFICATION_MATCH"
         old_data := none
         new_data := none
         message := "Amounts verified successfully by both parties." }] ∧
    (updateVerifiedAmounts (insertNewTrip "t1" "c1" "l" "p" "d" "m") none (some 5000)).2 = [] :=
  ⟨verification_safeguard_events.1 (insertNewTrip "t1" "c1" "l" "p" "d" "m") 5000 4500
      (Or.inl (by simp [insertNewTrip, applyCommissionTrigger, calculate_trip_commission]))
      (by norm_num),
    verification_safeguard_events.2.1 (insertNewTrip "t1" "c1" "l" "p" "d" "m") 5000 5000
      (Or.inl (by simp [insertNewTrip, applyCommissionTrigger, calculate_trip_commission]))
      rfl,
    verification_safeguard_events.2.2.1 (insertNewTrip "t1" "c1" "l" "p" "d" "m") (some 5000)⟩

/-- A concrete Pending trip used to exercise the lifecycle actions. -/
def pendingTrip : Trip :=
  { id := "trip-1"
    customer_id := "cust-1"
    driver_id := none
    load_description := "Cement bags"
    pickup_location := "Westlands"
    dropoff_location := "Mombasa CBD"
    pickup_time := "2025-01-01T10:00"
    agreed_fare := none
    platform_commission := none
    status := TripStatus.pending
    customer_verified_amount := none
    driver_verified_amount := none
    commission_paid := false
    commission_settled := false }

/-- A concrete Completed trip. -/
def completedTrip : Trip :=
  { pendingTrip with
      id := "trip-2"
      driver_id := some "drv-1"
      agreed_fare := some 10000
      platform_commission := some 1200
      status := TripStatus.completed }

/-- C1 counterexample: advancing a Pending trip — and likewise a Completed
trip — takes the early `if (!cfg) return;` branch: the outcome is
`AdvanceResult.skipped`, the silent no-op, and the trips state is unchanged.
No error value of any kind is produced (the codebase defines no
`TransitionError`), so the claim that such a transition is "rejected with a
TransitionError" is false; the rejection is a silent no-op. -/
theorem advance_invalid_counterexample :
    handleAdvanceStatus none [pendingTrip] pendingTrip =
      ([pendingTrip], AdvanceResult.skipped) ∧
    handleAdvanceStatus none [completedTrip] completedTrip =
      ([completedTrip], AdvanceResult.skipped) :=
  ⟨rfl, rfl⟩

/-- C1 (amended): a requested advance from a status with no configured
one-step successor (Pending or Completed have no `ADVANCE_CONFIG` entry) is
rejected as a silent no-op — no store update is issued, the state is
returned unchanged, and no error is surfaced — and is never accepted; the
only transitions the advance action can ever perform are the exact one-step
successors Confirmed → In Progress and In Progress → Completed, applied to
the single matching trip row. -/
theorem advance_only_one_step_successor :
    (∀ storeError trips trip, ADVANCE_CONFIG trip.status = none →
      handleAdvanceStatus storeError trips trip = (trips, AdvanceResult.skipped)) ∧
    ADVANCE_CONFIG TripStatus.pending = none ∧
    ADVANCE_CONFIG TripStatus.completed = none ∧
    ADVANCE_CONFIG TripStatus.confirmed = some TripStatus.inProgress ∧
    ADVANCE_CONFIG TripStatus.inProgress = some TripStatus.completed ∧
    (∀ trips trip next, ADVANCE_CONFIG trip.status = some next →
      handleAdvanceStatus none trips trip =
        (trips.map (fun t => if t.id = trip.id then { t with status := next } else t),
          AdvanceResult.updated next)) ∧
    (∀ msg trips trip next, ADVANCE_CONFIG trip.status = some next →
      handleAdvanceStatus (some msg) trips trip =
        (trips, AdvanceResult.errorThrown msg)) := by
  refine ⟨?_, rfl, rfl, rfl, rfl, ?_, ?_⟩
  · intro storeError trips trip h
    unfold handleAdvanceStatus
    rw [h]
  · intro trips trip next h
    unfold handleAdvanceStatus
    rw [h]
  · intro msg trips trip next h
    unfold handleAdvanceStatus
    rw [h]

/-- C1 witness: the amended theorem applied at concrete trips — the Pending
trip is silently skipped, and a Confirmed trip advances exactly one step to
In Progress. -/
theorem advance_only_one_step_successor_witness :
    handleAdvanceStatus none [pendingTrip] pendingTrip =
      ([pendingTrip], AdvanceResult.skipped) ∧
    handleAdvanceStatus none [{ pendingTrip with status := TripStatus.confirmed }]
        { pendingTrip with status := TripStatus.confirmed } =
      ([{ pendingTrip with status := TripStatus.inProgress }],
        AdvanceResult.updated TripStatus.inProgress) := by
  constructor
  · exact advance_only_one_step_successor.1 none [pendingTrip] pendingTrip rfl
  · rw [advance_only_one_step_successor.2.2.2.2.2.1
      [{ pendingTrip with status := TripStatus.confirmed }]
      { pendingTrip with status := TripStatus.confirmed } TripStatus.inProgress rfl]
    simp

/-- C5: the assign-driver action is a no-op returning the state unchanged
when the fare input does not parse (`isNaN`), when it parses to a
non-positive number, or when no driver is selected; when a driver is found
and the fare is positive it performs the single update that sets
`status = Confirmed`, `driver_id`, `agreed_fare` and the trigger-recomputed
`platform_commission = fare * 0.12` on the matching trip row, leaving every
other row unchanged. -/
theorem assignment_guard_and_effect :
    (∀ trips tripId drivers selId,
      confirmAssignment trips tripId drivers selId none = (trips, false)) ∧
    (∀ trips tripId drivers selId (f : ℚ), f ≤ 0 →
      confirmAssignment trips tripId drivers selId (some f) = (trips, false)) ∧
    (∀ trips tripId drivers selId pf,
      drivers.find? (fun d => d.id = selId) = none →
      confirmAssignment trips tripId drivers selId pf = (trips, false)) ∧
    (∀ trips tripId drivers selId (f : ℚ) d, 0 < f →
      drivers.find? (fun x => x.id = selId) = some d →
      confirmAssignment trips tripId drivers selId (some f) =
        (trips.map (fun t =>
          if t.id = tripId then
            { t with driver_id := some d.id
                     agreed_fare := some f
                     status := TripStatus.confirmed
                     platform_commission := some (f * (12 / 100)) }
          else t), true)) := by
  refine ⟨?_, ?_, ?_, ?_⟩
  · intro trips tripId drivers selId
    unfold confirmAssignment
    cases drivers.find? (fun d => d.id = selId) <;> rfl
  · intro trips tripId drivers selId f hf
    unfold confirmAssignment
    cases drivers.find? (fun d => d.id = selId) with
    | none => rfl
    | some d => simp [not_lt_of_le hf]
  · intro trips tripId drivers selId pf h
    unfold confirmAssignment
    rw [h]
  · intro trips tripId drivers selId f d hf h
    unfold confirmAssignment
    rw [h]
    have hmap : handleConfirmAssignment trips tripId d.id f =
        trips.map (fun t =>
          if t.id = tripId then
            { t with driver_id := some d.id
                     agreed_fare := some f
                     status := TripStatus.confirmed
                     platform_commission := some (f * (12 / 100)) }
          else t) := by
      unfold handleConfirmAssignment
      apply List.map_congr_left
      intro t _
      by_cases ht : t.id = tripId <;>
        simp [ht, applyCommissionTrigger, calculate_trip_commission]
    show (if 0 < f then (handleConfirmAssignment trips tripId d.id f, true)
        else (trips, false)) = _
    rw [if_pos hf, hmap]

/-- Concrete driver used by the assignment witness. -/
def exAssignDriver : Driver :=
  { id := "drv-9", full_name := "Juma", phone_number := "0712" }

/-- C5 witness: at concrete inputs, a fare of `0` is rejected leaving the
single Pending trip untouched, and a fare of `8000` with a selected driver
confirms the trip with commission `960`. -/
theorem assignment_guard_and_effect_witness :
    confirmAssignment [pendingTrip] "trip-1" [exAssignDriver] "drv-9" (some 0) =
      ([pendingTrip], false) ∧
    confirmAssignment [pendingTrip] "trip-1" [exAssignDriver] "drv-9" (some 8000) =
      ([{ pendingTrip with
            driver_id := some "drv-9"
            agreed_fare := some 8000
            status := TripStatus.confirmed
            platform_commission := some 960 }], true) := by
  constructor
  · exact assignment_guard_and_effect.2.1 [pendingTrip] "trip-1" [exAssignDriver] "drv-9" 0
      le_rfl
  · rw [assignment_guard_and_effect.2.2.2 [pendingTrip] "trip-1" [exAssignDriver] "drv-9" 8000
      exAssignDriver (by norm_num) (by simp [exAssignDriver])]
    norm_num [pendingTrip, exAssignDriver]

/-- C6: settling writes `commission_settled = true` to exactly the rows whose
id is in the snapshot list — positionally, every other row (including a trip
for the same driver completed after the statement was built) is returned
bit-for-bit unchanged — and a subsequent statement build, which selects only
Completed, unsettled trips, excludes every settled trip while still seeing
such an untouched concurrent trip. -/
theorem settle_marks_exactly_listed :
    (∀ trips tripIds, (settleTrips trips tripIds).length = trips.length) ∧
    (∀ trips tripIds (i : ℕ) (hi : i < trips.length)
        (hj : i < (settleTrips trips tripIds).length),
      (settleTrips trips tripIds)[i] =
        if trips[i].id ∈ tripIds
        then { trips[i] with commission_settled := true }
        else trips[i]) ∧
    (∀ trips tripIds t, t ∈ trips → t.id ∉ tripIds → t ∈ settleTrips trips tripIds) ∧
    (∀ trips tripIds t,
      t ∈ fetchCompletedUnsettled (settleTrips trips tripIds) → t.id ∉ tripIds) ∧
    (∀ trips tripIds t, t ∈ trips → t.id ∉ tripIds →
      t.status = TripStatus.completed → t.commission_settled = false →
      t ∈ fetchCompletedUnsettled (settleTrips trips tripIds)) := by
  refine ⟨?_, ?_, ?_, ?_, ?_⟩
  · intro trips tripIds
    simp [settleTrips]
  · intro trips tripIds i hi hj
    simp [settleTrips]
  · intro trips tripIds t ht hid
    have : (if t.id ∈ tripIds then { t with commission_settled := true } else t) ∈
        settleTrips trips tripIds := List.mem_map_of_mem _ ht
    rwa [if_neg hid] at this
  · intro trips tripIds t ht hid
    have hmem := List.mem_filter.mp ht
    obtain ⟨s, hs, hst⟩ := List.mem_map.mp hmem.1
    by_cases hsid : s.id ∈ tripIds
    · rw [if_pos hsid] at hst
      have : t.commission_settled = true := by rw [← hst]
      simp [this] at hmem
    · rw [if_neg hsid] at hst
      rw [← hst] at hid
      exact hsid hid
  · intro trips tripIds t ht hid hstatus hunsettled
    refine List.mem_filter.mpr ⟨?_, by simp [hstatus, hunsettled]⟩
    have : (if t.id ∈ tripIds then { t with commission_settled := true } else t) ∈
        settleTrips trips tripIds := List.mem_map_of_mem _ ht
    rwa [if_neg hid] at this

/-- C6 witness: settling the snapshot `[trip-2]` flips exactly that row, and
a concurrent completed, unsettled trip `trip-9` outside the snapshot is
untouched, excluded from the settled set, and still fetched afterwards. -/
theorem settle_marks_exactly_listed_witness :
    settleTrips [completedTrip, { completedTrip with id := "trip-9" }] ["trip-2"] =
      [{ completedTrip with commission_settled := true },
        { completedTrip with id := "trip-9" }] ∧
    ({ completedTrip with id := "trip-9" } : Trip) ∈
      fetchCompletedUnsettled
        (settleTrips [completedTrip, { completedTrip with id := "trip-9" }] ["trip-2"]) := by
  constructor
  · have h0 := settle_marks_exactly_listed.2.1
      [completedTrip, { completedTrip with id := "trip-9" }] ["trip-2"] 0
      (by simp) (by simp [settleTrips])
    have h1 := settle_marks_exactly_listed.2.1
      [completedTrip, { completedTrip with id := "trip-9" }] ["trip-2"] 1
      (by simp) (by simp [settleTrips])
    simp [settleTrips, completedTrip, pendingTrip]
  · exact settle_marks_exactly_listed.2.2.2.2
      [completedTrip, { completedTrip with id := "trip-9" }] ["trip-2"]
      { completedTrip with id := "trip-9" } (by simp)
      (by simp [completedTrip, pendingTrip]) rfl rfl

/-- Filtering a list twice with the same predicate equals filtering once. -/
theorem filter_self_idem {α : Type} (p : α → Bool) (l : List α) :
    (l.filter p).filter p = l.filter p := by
  induction l with
  | nil => rfl
  | cons a l ih =>
    by_cases h : p a = true
    · simp [List.filter_cons, h, ih]
    · simp [List.filter_cons, h, ih]

/-- C7: settling is idempotent in effect — re-running the store write with the
same id list leaves every row as after the first run, and a full second
`handleSettle` call on the post-settle state succeeds (it does not error) and
returns the store and the working set unchanged. -/
theorem settle_idempotent :
    (∀ trips tripIds,
      settleTrips (settleTrips trips tripIds) tripIds = settleTrips trips tripIds) ∧
    (∀ trips statements driverId tripIds,
      handleSettle none (handleSettle none trips statements driverId tripIds).trips
          (handleSettle none trips statements driverId tripIds).statements driverId tripIds =
        { trips := (handleSettle none trips statements driverId tripIds).trips
          statements := (handleSettle none trips statements driverId tripIds).statements
          toast := "Balance settled successfully"
          threw := false }) := by
  have hsettle : ∀ trips tripIds,
      settleTrips (settleTrips trips tripIds) tripIds = settleTrips trips tripIds := by
    intro trips tripIds
    unfold settleTrips
    rw [List.map_map]
    apply List.map_congr_left
    intro t _
    by_cases h : t.id ∈ tripIds
    · simp [Function.comp, h]
    · simp [Function.comp, h]
  refine ⟨hsettle, ?_⟩
  intro trips statements driverId tripIds
  show ({ trips := settleTrips (settleTrips trips tripIds) tripIds
          statements := (statements.filter (fun s => s.driver.id ≠ driverId)).filter
            (fun s => s.driver.id ≠ driverId)
          toast := "Balance settled successfully"
          threw := false } : SettleOutcome) = _
  rw [hsettle, filter_self_idem]
  rfl

/-- C8: when the store write behind `handleSettle` fails, the call surfaces
the error toast and rethrows, and neither the store (so no trip in the id
list has `commission_settled` changed — no partial settlement) nor the
working set of statements is modified. -/
theorem settle_failure_leaves_state :
    ∀ msg trips statements driverId tripIds,
      (handleSettle (some msg) trips statements driverId tripIds).trips = trips ∧
      (handleSettle (some msg) trips statements driverId tripIds).statements = statements ∧
      (handleSettle (some msg) trips statements driverId tripIds).toast =
        "Error settling balance. Please try again." ∧
      (handleSettle (some msg) trips statements driverId tripIds).threw = true := by
  intro msg trips statements driverId tripIds
  exact ⟨rfl, rfl, rfl, rfl⟩

/-- C10: submitting a trip with a phone number that matches an existing
customer returns the customers table completely unchanged — no insert, the
submitted name and business type discarded — and reuses the matched row's
id; a new row (with the trimmed form fields) is appended only when the
lookup finds no customer with that phone number. -/
theorem customer_upsert_by_phone :
    (∀ customers fullName phone bt freshId c,
      customers.find? (fun x => x.phone_number = jsTrim phone) = some c →
      upsertCustomer customers fullName phone bt freshId = (customers, c.id)) ∧
    (∀ customers fullName phone bt freshId,
      customers.find? (fun x => x.phone_number = jsTrim phone) = none →
      upsertCustomer customers fullName phone bt freshId =
        (customers ++
          [{ id := freshId
             full_name := jsTrim fullName
             phone_number := jsTrim phone
             business_type := if jsTrim bt = "" then none else some (jsTrim bt) }],
          freshId)) := by
  constructor
  · intro customers fullName phone bt freshId c h
    unfold upsertCustomer
    rw [h]
  · intro customers fullName phone bt freshId h
    unfold upsertCustomer
    rw [h]

/-- Existing customer row used by the upsert witness. -/
def exCustomer : Customer :=
  { id := "cust-7", full_name := "Amina Hassan", phone_number := "+254700000001",
    business_type := some "Hardware" }

/-- C10 witness: with `exCustomer` already in the table, submitting the same
phone number under a different name returns the table unchanged and reuses
`cust-7`; with an empty table, a fresh row is appended. -/
theorem customer_upsert_by_phone_witness :
    upsertCustomer [exCustomer] "Other Name" "+254700000001" "Retail" "cust-new" =
      ([exCustomer], "cust-7") ∧
    upsertCustomer [] "Amina Hassan" "+254700000001" "" "cust-new" =
      ([{ id := "cust-new"
          full_name := "Amina Hassan"
          phone_number := "+254700000001"
          business_type := none }], "cust-new") := by
  constructor
  · exact customer_upsert_by_phone.1 [exCustomer] "Other Name" "+254700000001" "Retail"
      "cust-new" exCustomer (by decide)
  · rw [customer_upsert_by_phone.2 [] "Amina Hassan" "+254700000001" "" "cust-new"
      (by decide)]
    decide

/-- Invariant of the per-driver map: each entry's running `totalFare` and
`totalCommission` are the sums of the per-trip terms over its pushed trips,
and every pushed trip carries the entry's `driver_id` key. -/
def pairInvariant (p : String × DriverStatement) : Prop :=
  p.2.totalFare = (p.2.trips.map fareOrZero).sum ∧
  p.2.totalCommission = (p.2.trips.map commissionOf).sum ∧
  ∀ t ∈ p.2.trips, t.driver_id = some p.1

/-- Equation: a trip with a null `driver_id` is skipped. -/
theorem addTripToMap_of_id_none {u : UnsettledTrip} (hk : u.driver_id = none)
    (acc : List (String × DriverStatement)) : addTripToMap acc u = acc := by
  unfold addTripToMap
  rw [hk]

/-- Equation: a trip with a null joined `driver` is skipped. -/
theorem addTripToMap_of_driver_none {u : UnsettledTrip} {k : String}
    (hk : u.driver_id = some k) (hd : u.driver = none)
    (acc : List (String × DriverStatement)) : addTripToMap acc u = acc := by
  unfold addTripToMap
  rw [hk, hd]

/-- Equation: the body of the loop for a trip with non-null `driver_id` and
`driver`. -/
theorem addTripToMap_of_some {u : UnsettledTrip} {k : String} {d : DriverRef}
    (hk : u.driver_id = some k) (hd : u.driver = some d)
    (acc : List (String × DriverStatement)) :
    addTripToMap acc u =
      if k = "" then acc
      else if (acc.find? (fun p => p.1 = k)).isSome then
        acc.map (fun p =>
          if p.1 = k then
            (p.1, { p.2 with trips := p.2.trips ++ [u]
                             totalFare := p.2.totalFare + fareOrZero u
                             totalCommission := p.2.totalCommission + commissionOf u })
          else p)
      else
        acc ++ [(k, { driver := d
                      trips := [u]
                      totalFare := fareOrZero u
                      totalCommission := commissionOf u })] := by
  unfold addTripToMap
  rw [hk, hd]

/-- One `groupByDriver` iteration preserves the map invariant. -/
theorem addTripToMap_pairInvariant {acc : List (String × DriverStatement)}
    {u : UnsettledTrip} (h : ∀ p ∈ acc, pairInvariant p) :
    ∀ p ∈ addTripToMap acc u, pairInvariant p := by
  intro p hp
  rcases hid : u.driver_id with _ | k
  · rw [addTripToMap_of_id_none hid] at hp
    exact h p hp
  · rcases hdr : u.driver with _ | d
    · rw [addTripToMap_of_driver_none hid hdr] at hp
      exact h p hp
    · rw [addTripToMap_of_some hid hdr] at hp
      by_cases hk : k = ""
      · rw [if_pos hk] at hp
        exact h p hp
      · rw [if_neg hk] at hp
        by_cases hfind : ((acc.find? (fun p => p.1 = k)).isSome : Prop)
        · rw [if_pos hfind] at hp
          obtain ⟨q, hq, hfq⟩ := List.mem_map.mp hp
          by_cases hqk : q.1 = k
          · rw [if_pos hqk] at hfq
            obtain ⟨hf, hc, hd2⟩ := h q hq
            subst hfq
            refine ⟨?_, ?_, ?_⟩
            · simp [hf]
            · simp [hc]
            · intro t ht
              rcases List.mem_append.mp ht with ht | ht
              · exact hd2 t ht
              · rw [List.mem_singleton.mp ht, hid, hqk]
          · rw [if_neg hqk] at hfq
            subst hfq
            exact h q hq
        · rw [if_neg hfind] at hp
          rcases List.mem_append.mp hp with hp | hp
          · exact h p hp
          · rw [List.mem_singleton.mp hp]
            refine ⟨by simp, by simp, ?_⟩
            intro t ht
            rw [List.mem_singleton.mp ht, hid]

/-- The whole fold preserves the map invariant. -/
theorem foldl_addTripToMap_pairInvariant (ts : List UnsettledTrip) :
    ∀ acc, (∀ p ∈ acc, pairInvariant p) →
      ∀ p ∈ ts.foldl addTripToMap acc, pairInvariant p := by
  induction ts with
  | nil =>
    intro acc h
    simpa using h
  | cons t ts ih =>
    intro acc h
    rw [List.foldl_cons]
    exact ih _ (addTripToMap_pairInvariant h)

/-- A trip already pushed into some map entry stays in an entry after one
more iteration (entries are only extended or appended, never dropped). -/
theorem addTripToMap_keeps {acc : List (String × DriverStatement)}
    {u w : UnsettledTrip} (h : ∃ p ∈ acc, w ∈ p.2.trips) :
    ∃ p ∈ addTripToMap acc u, w ∈ p.2.trips := by
  obtain ⟨p, hp, hw⟩ := h
  rcases hid : u.driver_id with _ | k
  · rw [addTripToMap_of_id_none hid]
    exact ⟨p, hp, hw⟩
  · rcases hdr : u.driver with _ | d
    · rw [addTripToMap_of_driver_none hid hdr]
      exact ⟨p, hp, hw⟩
    · rw [addTripToMap_of_some hid hdr]
      by_cases hk : k = ""
      · rw [if_pos hk]
        exact ⟨p, hp, hw⟩
      · rw [if_neg hk]
        by_cases hfind : ((acc.find? (fun p => p.1 = k)).isSome : Prop)
        · rw [if_pos hfind]
          refine ⟨if p.1 = k then
              (p.1, { p.2 with trips := p.2.trips ++ [u]
                               totalFare := p.2.totalFare + fareOrZero u
                               totalCommission := p.2.totalCommission + commissionOf u })
            else p, List.mem_map_of_mem _ hp, ?_⟩
          by_cases hpk : p.1 = k
          · rw [if_pos hpk]
            exact List.mem_append_left _ hw
          · rw [if_neg hpk]
            exact hw
        · rw [if_neg hfind]
          exact ⟨p, List.mem_append_left _ hp, hw⟩

/-- The iteration that processes an eligible trip (truthy `driver_id`,
non-null joined `driver`) pushes it into some map entry. -/
theorem addTripToMap_adds {acc : List (String × DriverStatement)}
    {u : UnsettledTrip} {k : String} {d : DriverRef}
    (hk : u.driver_id = some k) (hd : u.driver = some d) (hne : ¬ k = "") :
    ∃ p ∈ addTripToMap acc u, u ∈ p.2.trips := by
  rw [addTripToMap_of_some hk hd, if_neg hne]
  by_cases hfind : ((acc.find? (fun p => p.1 = k)).isSome : Prop)
  · rw [if_pos hfind]
    obtain ⟨q, hq⟩ := Option.isSome_iff_exists.mp hfind
    have hql : q ∈ acc := List.mem_of_find?_eq_some hq
    have hqk : q.1 = k := by simpa using List.find?_some hq
    refine ⟨(q.1, { q.2 with trips := q.2.trips ++ [u]
                             totalFare := q.2.totalFare + fareOrZero u
                             totalCommission := q.2.totalCommission + commissionOf u }),
      List.mem_map.mpr ⟨q, hql, by simp [hqk]⟩,
      List.mem_append_right _ (List.mem_singleton.mpr rfl)⟩
  · rw [if_neg hfind]
    exact ⟨(k, { driver := d, trips := [u], totalFare := fareOrZero u
                 totalCommission := commissionOf u }),
      List.mem_append_right _ (List.mem_singleton.mpr rfl),
      List.mem_singleton.mpr rfl⟩

/-- A pushed trip survives the rest of the fold. -/
theorem foldl_addTripToMap_keeps (ts : List UnsettledTrip) :
    ∀ acc (w : UnsettledTrip), (∃ p ∈ acc, w ∈ p.2.trips) →
      ∃ p ∈ ts.foldl addTripToMap acc, w ∈ p.2.trips := by
  induction ts with
  | nil =>
    intro acc w h
    simpa using h
  | cons t ts ih =>
    intro acc w h
    rw [List.foldl_cons]
    exact ih _ w (addTripToMap_keeps h)

/-- Every eligible input trip ends up pushed into some map entry. -/
theorem foldl_addTripToMap_covers (ts : List UnsettledTrip) :
    ∀ acc, ∀ u ∈ ts, ∀ (k : String) (d : DriverRef),
      u.driver_id = some k → u.driver = some d → ¬ k = "" →
      ∃ p ∈ ts.foldl addTripToMap acc, u ∈ p.2.trips := by
  induction ts with
  | nil =>
    intro acc u hu
    simp at hu
  | cons t ts ih =>
    intro acc u hu k d hk hd hne
    rw [List.foldl_cons]
    rcases List.mem_cons.mp hu with h | h
    · subst h
      exact foldl_addTripToMap_keeps ts _ u (addTripToMap_adds hk hd hne)
    · exact ih _ u h k d hk hd hne

/-- Driver A of the spec's aggregator example. -/
def exDriverA : DriverRef :=
  { id := "A", full_name := "Driver A", phone_number := "0700" }

/-- Driver B of the spec's aggregator example. -/
def exDriverB : DriverRef :=
  { id := "B", full_name := "Driver B", phone_number := "0701" }

/-- Example trip: driver A, fare 10000, commission column unset so the
fallback recomputation is exercised. -/
def exTripA1 : UnsettledTrip :=
  { id := "t1", driver_id := some "A", load_description := "l1",
    pickup_location := "p1", dropoff_location := "q1", pickup_time := "m1",
    agreed_fare := some 10000, platform_commission := none,
    driver := some exDriverA }

/-- Example trip: driver A, fare 5000. -/
def exTripA2 : UnsettledTrip :=
  { exTripA1 with id := "t2", agreed_fare := some 5000 }

/-- Example trip: driver B, fare 20000. -/
def exTripB1 : UnsettledTrip :=
  { id := "t3", driver_id := some "B", load_description := "l3",
    pickup_location := "p3", dropoff_location := "q3", pickup_time := "m3",
    agreed_fare := some 20000, platform_commission := none,
    driver := some exDriverB }

/-- The input of the spec's aggregator example. -/
def exampleTrips : List UnsettledTrip := [exTripA1, exTripA2, exTripB1]

/-- Driver A's expected statement: totalFare 15000, totalCommission 1800. -/
def exStatementA : DriverStatement :=
  { driver := exDriverA, trips := [exTripA1, exTripA2],
    totalFare := 15000, totalCommission := 1800 }

/-- Driver B's expected statement: totalFare 20000, totalCommission 2400. -/
def exStatementB : DriverStatement :=
  { driver := exDriverB, trips := [exTripB1],
    totalFare := 20000, totalCommission := 2400 }

/-- Evaluating the aggregator on the example input: statement B (higher
commission) precedes statement A. -/
theorem groupByDriver_example :
    groupByDriver exampleTrips = [exStatementB, exStatementA] := by
  norm_num [groupByDriver, addTripToMap, exampleTrips, exTripA1, exTripA2,
    exTripB1, exDriverA, exDriverB, fareOrZero, commissionOf,
    List.insertionSort, List.orderedInsert, commissionDescending, List.find?,
    exStatementA, exStatementB]

/-- C4: `buildStatements` (`groupByDriver`) groups its input by `driver_id` —
every statement's trips all carry that statement's key, so no trip with a
null `driver_id` appears, and every trip with a usable `driver_id` and
joined driver lands in a statement — each statement's `totalFare` is the sum
of `agreed_fare ?? 0` and its `totalCommission` the sum of
`platform_commission ?? (agreed_fare ?? 0) * 0.12` over its trips, the
output is sorted descending by `totalCommission`, and on the spec's example
it returns B (20000, 2400) before A (15000, 1800). -/
theorem buildStatements_grouping_totals_order :
    (∀ trips : List UnsettledTrip, ∀ s ∈ groupByDriver trips,
      s.totalFare = (s.trips.map fareOrZero).sum ∧
      s.totalCommission = (s.trips.map commissionOf).sum ∧
      ∃ k : String, ∀ t ∈ s.trips, t.driver_id = some k) ∧
    (∀ trips : List UnsettledTrip, ∀ u ∈ trips, ∀ (k : String) (d : DriverRef),
      u.driver_id = some k → u.driver = some d → ¬ k = "" →
      ∃ s ∈ groupByDriver trips, u ∈ s.trips) ∧
    (∀ trips : List UnsettledTrip,
      (groupByDriver trips).Sorted commissionDescending) ∧
    (groupByDriver exampleTrips).map
        (fun s => (s.driver.id, s.totalFare, s.totalCommission)) =
      [("B", 20000, 2400), ("A", 15000, 1800)] := by
  refine ⟨?_, ?_, ?_, ?_⟩
  · intro trips s hs
    have hs2 : s ∈ (trips.foldl addTripToMap []).map Prod.snd :=
      (List.mem_insertionSort commissionDescending).mp hs
    obtain ⟨p, hp, hps⟩ := List.mem_map.mp hs2
    have hinv := foldl_addTripToMap_pairInvariant trips [] (by simp) p hp
    rw [← hps]
    exact ⟨hinv.1, hinv.2.1, p.1, hinv.2.2⟩
  · intro trips u hu k d hk hd hne
    obtain ⟨p, hp, hup⟩ := foldl_addTripToMap_covers trips [] u hu k d hk hd hne
    exact ⟨p.2,
      (List.mem_insertionSort commissionDescending).mpr (List.mem_map_of_mem Prod.snd hp),
      hup⟩
  · intro trips
    exact List.sorted_insertionSort commissionDescending _
  · rw [groupByDriver_example]
    norm_num [exStatementA, exStatementB, exDriverA, exDriverB]

/-- C4 witness: the general conjuncts applied to the concrete example —
statement B's totals are the sums over its single trip, trip `exTripA2` is
covered by some statement, and the output order is exactly [B, A]. -/
theorem buildStatements_grouping_totals_order_witness :
    exStatementB.totalFare = (exStatementB.trips.map fareOrZero).sum ∧
    exStatementA.totalCommission = (exStatementA.trips.map commissionOf).sum ∧
    (groupByDriver exampleTrips).map
        (fun s => (s.driver.id, s.totalFare, s.totalCommission)) =
      [("B", 20000, 2400), ("A", 15000, 1800)] :=
  ⟨(buildStatements_grouping_totals_order.1 exampleTrips exStatementB
      (by rw [groupByDriver_example]; simp)).1,
    (buildStatements_grouping_totals_order.1 exampleTrips exStatementA
      (by rw [groupByDriver_example]; simp)).2.1,
    buildStatements_grouping_totals_order.2.2.2⟩

end Dispatch
